import Mathlib

/-!
Shallow embedding of the profile-persistence and edit-state logic of
`src/client/src/pages/Profile.tsx`.

The page holds an in-memory profile record (React `useState`), an editing
flag, and persists either to a remote account service (authenticated users,
HTTP PUT via a react-query mutation) or to local storage under the fixed key
`guest_profile` (guest users).  Rendering is out of scope; the handlers and
effect hooks are modelled as pure state-transition functions that also return
the list of external effects they perform.  JSON serialisation of the
five-string record is modelled structurally: the local store holds either a
parsed object (a record of optional strings plus extra keys) or a malformed
blob; `JSON.stringify`/`JSON.parse` round-tripping of plain string records is
the identity on this representation.  JSON values of extra keys are modelled
as strings (their content is never inspected by the page).
-/

/-- The five editable profile attributes (Profile.tsx lines 24-30). -/
structure ProfileFields where
  username : String
  name : String
  phone : String
  email : String
  address : String
deriving DecidableEq, Repr

/-- The initial profile state: all fields default to the empty string
(Profile.tsx lines 24-30). -/
def ProfileFields.empty : ProfileFields :=
  { username := "", name := "", phone := "", email := "", address := "" }

/-- The five editable field names, used to index frame conditions. -/
inductive FieldName
  | username | name | phone | email | address
deriving DecidableEq, Repr

/-- Read one attribute of a `ProfileFields` record by field name. -/
def getField (f : ProfileFields) : FieldName → String
  | .username => f.username
  | .name => f.name
  | .phone => f.phone
  | .email => f.email
  | .address => f.address

/-- Write one attribute of a `ProfileFields` record by field name; this is the
object-spread `{...prev, key: value}` of the five `onChange` handlers
(Profile.tsx lines 199, 208, 217, 227, 236). -/
def setField (f : ProfileFields) : FieldName → String → ProfileFields
  | .username, v => { f with username := v }
  | .name, v => { f with name := v }
  | .phone, v => { f with phone := v }
  | .email, v => { f with email := v }
  | .address, v => { f with address := v }

/-- A parsed JSON object as produced by `JSON.parse` on the guest blob: each of
the five known keys is present or absent, and the object may carry extra keys
(an association list, earliest entry shadowing later ones on lookup). -/
structure StoredProfile where
  username : Option String
  name : Option String
  phone : Option String
  email : Option String
  address : Option String
  extra : List (String × String)
deriving DecidableEq, Repr

/-- Read one of the five known keys of a parsed blob by field name. -/
def StoredProfile.get (p : StoredProfile) : FieldName → Option String
  | .username => p.username
  | .name => p.name
  | .phone => p.phone
  | .email => p.email
  | .address => p.address

/-- The string stored under the `guest_profile` local-storage key, viewed
through `JSON.parse`: either a well-formed object or malformed data (the
`catch` branch of Profile.tsx lines 112-117). -/
inductive LocalBlob
  | parsed (p : StoredProfile)
  | malformed
deriving DecidableEq, Repr

/-- The local-storage cell at key `guest_profile`: absent or a stored blob. -/
def LocalStore := Option LocalBlob

instance : DecidableEq LocalStore :=
  inferInstanceAs (DecidableEq (Option LocalBlob))

/-- The component's mutable state: the profile record held in React state
(its five fields plus any extra keys merged in by object spread), the
`isEditing` flag, and the mutation's pending flag. -/
structure ComponentState where
  fields : ProfileFields
  extraKeys : List (String × String)
  isEditing : Bool
  isPending : Bool
deriving DecidableEq, Repr

/-- Component state on mount: empty fields, viewing mode, no pending save. -/
def initialState : ComponentState :=
  { fields := ProfileFields.empty, extraKeys := [], isEditing := false,
    isPending := false }

/-- External effects a handler can perform, recorded as a trace. -/
inductive Effect
  | networkPut (userId : String) (body : ProfileFields)
  | localWrite (blob : LocalBlob)
  | invalidateQueries
  | toastSuccess
  | toastError
  | consoleError
deriving DecidableEq, Repr

/-- Whether an effect is a network call (the mutation's HTTP PUT). -/
def Effect.isNetworkPut : Effect → Bool
  | .networkPut _ _ => true
  | _ => false

/-- Whether an effect is a local-storage write. -/
def Effect.isLocalWrite : Effect → Bool
  | .localWrite _ => true
  | _ => false

/-- JavaScript truthiness of the optional `userId` string (`!!userId`):
`undefined`, `null` and the empty string are falsy. -/
def jsTruthy : Option String → Bool
  | none => false
  | some s => !s.isEmpty

/-- `const isGuestMode = !isAuthenticated || !userId` (Profile.tsx line 105). -/
def isGuestMode (isAuthenticated : Bool) (userId : Option String) : Bool :=
  !isAuthenticated || !jsTruthy userId

/-- One `onChange` handler of an edit input: object-spread update of a single
attribute in React state (Profile.tsx lines 196-238).  No other state is
touched and no external effect is performed. -/
def updateField (s : ComponentState) (fld : FieldName) (v : String) :
    ComponentState × List Effect :=
  ({ s with fields := setField s.fields fld v }, [])

/-- The cancel button's handler: `onClick={() => setIsEditing(false)}`
(Profile.tsx lines 254-260).  Only the editing flag changes. -/
def cancelEdit (s : ComponentState) : ComponentState × List Effect :=
  ({ s with isEditing := false }, [])

/-- `JSON.stringify` of the five-field object built by `handleGuestSave`
(Profile.tsx lines 125-131): a parsed-form blob with all five keys present
and no extra keys. -/
def serializeFields (f : ProfileFields) : LocalBlob :=
  .parsed { username := some f.username, name := some f.name,
            phone := some f.phone, email := some f.email,
            address := some f.address, extra := [] }

/-- `handleGuestSave` (Profile.tsx lines 123-144): writes the five fields as
JSON under `guest_profile` and leaves editing mode with a success toast; if
`localStorage.setItem` throws (`quotaOk = false`), the store and state are
unchanged and an error toast is shown. -/
def handleGuestSave (s : ComponentState) (store : LocalStore) (quotaOk : Bool) :
    ComponentState × LocalStore × List Effect :=
  if quotaOk then
    ({ s with isEditing := false }, some (serializeFields s.fields),
      [Effect.localWrite (serializeFields s.fields), Effect.toastSuccess])
  else
    (s, store, [Effect.toastError])

/-- The react-query mutation's `mutationFn` (Profile.tsx lines 43-47): throws
when `userId` is falsy, otherwise issues `PUT /api/users/{userId}` with the
whole five-field record as body. -/
def mutationFn (userId : Option String) (body : ProfileFields) :
    Except String Effect :=
  match userId with
  | none => .error "يجب تسجيل الدخول أولاً"
  | some uid =>
      if uid.isEmpty then .error "يجب تسجيل الدخول أولاً"
      else .ok (.networkPut uid body)

/-- `handleSave` (Profile.tsx lines 78-90): dispatches to `handleGuestSave`
in guest mode, otherwise invokes the mutation with the five in-memory fields.
A synchronous `mutationFn` throw is routed to the error handler (toast). -/
def handleSave (isAuthenticated : Bool) (userId : Option String)
    (s : ComponentState) (store : LocalStore) (quotaOk : Bool) :
    ComponentState × LocalStore × List Effect :=
  if isGuestMode isAuthenticated userId then
    handleGuestSave s store quotaOk
  else
    match mutationFn userId s.fields with
    | .ok eff => ({ s with isPending := true }, store, [eff])
    | .error _ => ({ s with isPending := false }, store, [Effect.toastError])

/-- Outcome of the remote PUT, as seen by the mutation's callbacks. -/
inductive RemoteResult
  | success
  | failure
deriving DecidableEq, Repr

/-- Settlement of an in-flight remote save (Profile.tsx lines 48-62):
`onSuccess` invalidates the user query, leaves editing mode and shows a
success toast; `onError` only shows an error toast — the in-memory fields and
the editing flag are untouched. -/
def mutationSettled (r : RemoteResult) (s : ComponentState) :
    ComponentState × List Effect :=
  match r with
  | .success =>
      ({ s with isEditing := false, isPending := false },
        [Effect.invalidateQueries, Effect.toastSuccess])
  | .failure =>
      ({ s with isPending := false }, [Effect.toastError])

/-- The save button's `disabled` prop:
`!isGuestMode && updateProfileMutation.isPending` (Profile.tsx line 244). -/
def saveButtonDisabled (isAuthenticated : Bool) (userId : Option String)
    (isPending : Bool) : Bool :=
  !isGuestMode isAuthenticated userId && isPending

/-- Overlay of a parsed blob over the current fields: the five-key part of
the object spread `{...prev, ...parsedProfile}` (Profile.tsx line 114).
Keys present in the blob override, absent keys keep the previous value. -/
def overlayFields (prev : ProfileFields) (p : StoredProfile) : ProfileFields :=
  { username := p.username.getD prev.username,
    name := p.name.getD prev.name,
    phone := p.phone.getD prev.phone,
    email := p.email.getD prev.email,
    address := p.address.getD prev.address }

/-- Overlay of association lists: the extra-key part of the object spread —
keys of the new object override, remaining previous keys survive. -/
def assocOverlay (prev new : List (String × String)) :
    List (String × String) :=
  new ++ prev.filter (fun kv => !(new.any (fun kv2 => kv2.1 == kv.1)))

/-- The guest-load effect hook (Profile.tsx lines 108-120): in guest mode,
reads `guest_profile`; absence leaves the state alone, a parse failure is
logged to the console and leaves the state alone, and a parsed object is
spread over the current profile state. -/
def guestLoad (isAuthenticated : Bool) (userId : Option String)
    (s : ComponentState) (store : LocalStore) :
    ComponentState × List Effect :=
  if isGuestMode isAuthenticated userId then
    match store with
    | none => (s, [])
    | some .malformed => (s, [Effect.consoleError])
    | some (.parsed p) =>
        ({ s with fields := overlayFields s.fields p,
                  extraKeys := assocOverlay s.extraKeys p.extra }, [])
  else (s, [])

/-- The record returned by the remote read `GET /api/users/{userId}`: each of
the five editable keys may be absent (or `null`, identified with absence). -/
structure RemoteUser where
  username : Option String
  name : Option String
  phone : Option String
  email : Option String
  address : Option String
deriving DecidableEq, Repr

/-- Read one key of a remote user record by field name. -/
def RemoteUser.get (u : RemoteUser) : FieldName → Option String
  | .username => u.username
  | .name => u.name
  | .phone => u.phone
  | .email => u.email
  | .address => u.address

/-- `user.key || ''`: absent (or falsy) values default to the empty string. -/
def jsOrEmpty : Option String → String
  | none => ""
  | some s => s

/-- The authenticated-load effect hook (Profile.tsx lines 66-76): when user
data arrives, the profile state is replaced wholesale by a fresh five-key
object, each missing key defaulting to the empty string. -/
def loadFromUser (u : RemoteUser) (s : ComponentState) :
    ComponentState × List Effect :=
  ({ s with
      fields := { username := jsOrEmpty u.username, name := jsOrEmpty u.name,
                  phone := jsOrEmpty u.phone, email := jsOrEmpty u.email,
                  address := jsOrEmpty u.address },
      extraKeys := [] }, [])

/-! ## Helper lemmas -/

/-- Lookup in an appended association list finds entries of the left part
first. -/
theorem lookup_append_left (k v : String) (xs ys : List (String × String))
    (h : xs.lookup k = some v) : (xs ++ ys).lookup k = some v := by
  induction xs with
  | nil => simp [List.lookup] at h
  | cons hd tl ih =>
    obtain ⟨a, b⟩ := hd
    simp only [List.cons_append, List.lookup] at h ⊢
    cases hab : (k == a) with
    | true => rw [hab] at h; exact h
    | false => rw [hab] at h; exact ih h

/-! ## Claims -/

/-- C1, counterexample: starting from the editing state with all-empty
fields, updating the name to "X" and then cancelling does NOT restore the
fields to their pre-update values — the cancel handler only clears the
editing flag, leaving the typed value in memory. -/
theorem cancel_no_restore_counterexample :
    ¬ ((cancelEdit (updateField { initialState with isEditing := true }
          FieldName.name "X").1).1.fields =
        ({ initialState with isEditing := true } : ComponentState).fields) := by
  decide

/-- C1 (amended): performing update(field, value) while in Editing and then
invoking cancel returns EditState to Viewing and performs no persistence (no
network call, no local-storage write: both handlers' effect traces are empty),
but leaves the in-memory ProfileFields at the updated values — the edits are
not discarded. -/
theorem update_then_cancel (s : ComponentState) (fld : FieldName) (v : String) :
    (cancelEdit (updateField s fld v).1).1.isEditing = false ∧
    (cancelEdit (updateField s fld v).1).1.fields = setField s.fields fld v ∧
    (updateField s fld v).2 = [] ∧
    (cancelEdit (updateField s fld v).1).2 = [] :=
  ⟨rfl, rfl, rfl, rfl⟩

/-- C2: for every ProfileFields record f, writing f via the guest-mode save
(the `guest_profile` local write) and then reading via the guest-mode load
yields a record equal to f in all five fields, whatever the in-memory state
the load merges into. -/
theorem local_round_trip (f : ProfileFields) (s : ComponentState) :
    (guestLoad false none s (some (serializeFields f))).1.fields = f := by
  cases f
  rfl

/-- C3: save dispatches to exactly one backend.  In guest mode (session not
authenticated, or userId falsy) the save trace contains no network call; in
authenticated mode with a truthy userId the local store is untouched and the
trace is exactly the one remote PUT of the five in-memory fields. -/
theorem save_dispatch_exclusive (isAuth : Bool) (uid : Option String)
    (s : ComponentState) (store : LocalStore) (quotaOk : Bool) :
    (isGuestMode isAuth uid = true →
      ((handleSave isAuth uid s store quotaOk).2.2).all
        (fun e => !e.isNetworkPut) = true) ∧
    (isGuestMode isAuth uid = false →
      (handleSave isAuth uid s store quotaOk).2.1 = store ∧
      ∃ u, uid = some u ∧
        (handleSave isAuth uid s store quotaOk).2.2 =
          [Effect.networkPut u s.fields]) := by
  constructor
  · intro h
    simp only [handleSave, h, if_true]
    cases quotaOk <;> simp [handleGuestSave, Effect.isNetworkPut]
  · intro h
    have hauth : isAuth = true ∧ jsTruthy uid = true := by
      simpa [isGuestMode] using h
    obtain ⟨u, hu⟩ : ∃ u, uid = some u := by
      cases uid with
      | none => simp [jsTruthy] at hauth
      | some u => exact ⟨u, rfl⟩
    have hne : u.isEmpty = false := by
      have := hauth.2
      simpa [hu, jsTruthy] using this
    subst hu
    simp [handleSave, h, mutationFn, hne]

/-- C3 witness: at a concrete authenticated session (userId "42"), save
leaves the local store untouched and issues exactly the remote PUT. -/
theorem save_dispatch_exclusive_witness :
    (handleSave true (some "42") initialState none true).2.1 = none ∧
    ∃ u, (some "42" : Option String) = some u ∧
      (handleSave true (some "42") initialState none true).2.2 =
        [Effect.networkPut u initialState.fields] :=
  (save_dispatch_exclusive true (some "42") initialState none true).2 (by decide)

/-- C4: when the remote write settles with an error, the component stays in
Editing, the in-memory fields are exactly what the user had typed (no
rollback, no commit), the only effect is the error toast, and the save button
is enabled again (retry permitted). -/
theorem remote_save_failure (isAuth : Bool) (uid : Option String)
    (s : ComponentState) (h : s.isEditing = true) :
    (mutationSettled RemoteResult.failure s).1.isEditing = true ∧
    (mutationSettled RemoteResult.failure s).1.fields = s.fields ∧
    (mutationSettled RemoteResult.failure s).2 = [Effect.toastError] ∧
    saveButtonDisabled isAuth uid
      (mutationSettled RemoteResult.failure s).1.isPending = false := by
  refine ⟨h, rfl, rfl, ?_⟩
  simp [saveButtonDisabled, mutationSettled]

/-- C4 witness: a concrete failing authenticated save from the editing
state. -/
theorem remote_save_failure_witness :
    (mutationSettled RemoteResult.failure
        { initialState with isEditing := true }).1.isEditing = true ∧
    (mutationSettled RemoteResult.failure
        { initialState with isEditing := true }).1.fields =
      ({ initialState with isEditing := true } : ComponentState).fields ∧
    (mutationSettled RemoteResult.failure
        { initialState with isEditing := true }).2 = [Effect.toastError] ∧
    saveButtonDisabled true (some "42")
      (mutationSettled RemoteResult.failure
        { initialState with isEditing := true }).1.isPending = false :=
  remote_save_failure true (some "42")
    { initialState with isEditing := true } rfl

/-- C5: update(field, value) sets exactly that attribute to the value, leaves
every other attribute and all other component state unchanged, and performs no
external effect (it is total, so it always succeeds). -/
theorem update_single_field (s : ComponentState) (fld other : FieldName)
    (v : String) (h : other ≠ fld) :
    getField (updateField s fld v).1.fields fld = v ∧
    getField (updateField s fld v).1.fields other = getField s.fields other ∧
    (updateField s fld v).1.extraKeys = s.extraKeys ∧
    (updateField s fld v).1.isEditing = s.isEditing ∧
    (updateField s fld v).1.isPending = s.isPending ∧
    (updateField s fld v).2 = [] := by
  refine ⟨?_, ?_, rfl, rfl, rfl, rfl⟩
  · cases fld <;> rfl
  · cases fld <;> cases other <;> first | rfl | exact absurd rfl h

/-- C5 witness: updating the name leaves the email attribute unchanged. -/
theorem update_single_field_witness :
    getField (updateField initialState FieldName.name "Sara").1.fields
      FieldName.name = "Sara" ∧
    getField (updateField initialState FieldName.name "Sara").1.fields
      FieldName.email = getField initialState.fields FieldName.email ∧
    (updateField initialState FieldName.name "Sara").1.extraKeys =
      initialState.extraKeys ∧
    (updateField initialState FieldName.name "Sara").1.isEditing =
      initialState.isEditing ∧
    (updateField initialState FieldName.name "Sara").1.isPending =
      initialState.isPending ∧
    (updateField initialState FieldName.name "Sara").2 = [] :=
  update_single_field initialState FieldName.name FieldName.email "Sara"
    (by decide)

/-- C6: when the authenticated load receives a record with some editable keys
missing, each present key is populated with its returned value and each
missing key with the empty string (the field type is String, so the result is
never null or absent). -/
theorem load_missing_keys_default (u : RemoteUser) (s : ComponentState)
    (fld : FieldName) :
    (∀ v, u.get fld = some v →
      getField (loadFromUser u s).1.fields fld = v) ∧
    (u.get fld = none → getField (loadFromUser u s).1.fields fld = "") := by
  constructor
  · intro v hv
    cases fld <;>
      simp_all [RemoteUser.get, loadFromUser, getField, jsOrEmpty]
  · intro hv
    cases fld <;>
      simp_all [RemoteUser.get, loadFromUser, getField, jsOrEmpty]

/-- C6 witness: the spec's scenario — remote read returns only name "Omar"
and phone "0500000000"; the loaded fields carry those values and the missing
username defaults to the empty string. -/
theorem load_missing_keys_default_witness :
    getField (loadFromUser
        ⟨none, some "Omar", some "0500000000", none, none⟩
        initialState).1.fields FieldName.name = "Omar" ∧
    getField (loadFromUser
        ⟨none, some "Omar", some "0500000000", none, none⟩
        initialState).1.fields FieldName.username = "" :=
  ⟨(load_missing_keys_default
      ⟨none, some "Omar", some "0500000000", none, none⟩
      initialState FieldName.name).1 "Omar" rfl,
   (load_missing_keys_default
      ⟨none, some "Omar", some "0500000000", none, none⟩
      initialState FieldName.username).2 rfl⟩

/-- C7: a malformed stored blob is treated as absence by the guest-mode load:
the component state is left exactly as it was, the only effect is a console
log (no toast, no failure). -/
theorem malformed_blob_is_absence (isAuth : Bool) (uid : Option String)
    (s : ComponentState) (h : isGuestMode isAuth uid = true) :
    (guestLoad isAuth uid s (some LocalBlob.malformed)).1 = s ∧
    (guestLoad isAuth uid s (some LocalBlob.malformed)).2 =
      [Effect.consoleError] := by
  simp [guestLoad, h]

/-- C7 witness: a concrete guest session with a corrupt blob. -/
theorem malformed_blob_is_absence_witness :
    (guestLoad false none initialState (some LocalBlob.malformed)).1 =
      initialState ∧
    (guestLoad false none initialState (some LocalBlob.malformed)).2 =
      [Effect.consoleError] :=
  malformed_blob_is_absence false none initialState rfl

/-- C8: the spec's guest scenario — with no prior local storage, load leaves
the fields at the all-empty defaults; after setting name to "Sara" and
saving, a subsequent guest read yields name "Sara" and the other four fields
empty. -/
theorem guest_sara_scenario :
    (guestLoad false none initialState none).1.fields = ProfileFields.empty ∧
    (guestLoad false none initialState
        (handleSave false none
          (updateField (guestLoad false none initialState none).1
            FieldName.name "Sara").1
          none true).2.1).1.fields =
      { username := "", name := "Sara", phone := "", email := "",
        address := "" } := by
  exact ⟨rfl, rfl⟩

/-- C9 (implicit): the guest-mode load is an overlay merge, not a
whole-record replace — a key absent from the parsed blob retains its prior
in-memory value, a present key takes the blob's value, and extra keys of the
blob are merged into the in-memory record. -/
theorem guest_load_is_overlay (s : ComponentState) (p : StoredProfile)
    (fld : FieldName) :
    (p.get fld = none →
      getField (guestLoad false none s
        (some (LocalBlob.parsed p))).1.fields fld = getField s.fields fld) ∧
    (∀ v, p.get fld = some v →
      getField (guestLoad false none s
        (some (LocalBlob.parsed p))).1.fields fld = v) ∧
    (∀ k v, p.extra.lookup k = some v →
      (guestLoad false none s
        (some (LocalBlob.parsed p))).1.extraKeys.lookup k = some v) := by
  refine ⟨?_, ?_, ?_⟩
  · intro hv
    cases fld <;>
      simp_all [StoredProfile.get, guestLoad, isGuestMode, jsTruthy,
        overlayFields, getField]
  · intro v hv
    cases fld <;>
      simp_all [StoredProfile.get, guestLoad, isGuestMode, jsTruthy,
        overlayFields, getField]
  · intro k v hv
    have : (guestLoad false none s (some (LocalBlob.parsed p))).1.extraKeys =
        assocOverlay s.extraKeys p.extra := rfl
    rw [this, assocOverlay]
    exact lookup_append_left k v p.extra _ hv

/-- C9 witness: a blob carrying only a phone and one extra key, merged over a
state whose name is "Sara": the name survives, the phone is overridden, and
the extra key is looked up from the merged record. -/
theorem guest_load_is_overlay_witness :
    getField (guestLoad false none
        { initialState with fields := { ProfileFields.empty with name := "Sara" } }
        (some (LocalBlob.parsed
          ⟨none, none, some "0500000000", none, none, [("theme", "dark")]⟩))).1.fields
      FieldName.name = "Sara" ∧
    getField (guestLoad false none
        { initialState with fields := { ProfileFields.empty with name := "Sara" } }
        (some (LocalBlob.parsed
          ⟨none, none, some "0500000000", none, none, [("theme", "dark")]⟩))).1.fields
      FieldName.phone = "0500000000" ∧
    (guestLoad false none
        { initialState with fields := { ProfileFields.empty with name := "Sara" } }
        (some (LocalBlob.parsed
          ⟨none, none, some "0500000000", none, none, [("theme", "dark")]⟩))).1.extraKeys.lookup
      "theme" = some "dark" := by
  refine ⟨?_, ?_, ?_⟩
  · exact (guest_load_is_overlay
      { initialState with fields := { ProfileFields.empty with name := "Sara" } }
      ⟨none, none, some "0500000000", none, none, [("theme", "dark")]⟩
      FieldName.name).1 rfl
  · exact (guest_load_is_overlay
      { initialState with fields := { ProfileFields.empty with name := "Sara" } }
      ⟨none, none, some "0500000000", none, none, [("theme", "dark")]⟩
      FieldName.phone).2.1 "0500000000" rfl
  · exact (guest_load_is_overlay
      { initialState with fields := { ProfileFields.empty with name := "Sara" } }
      ⟨none, none, some "0500000000", none, none, [("theme", "dark")]⟩
      FieldName.phone).2.2 "theme" "dark" rfl

/-- C10 (implicit): the missing-userId error branch of the mutation is
unreachable — whenever handleSave takes the remote path (guest mode false),
the mutation function succeeds with the PUT, and under the guest precondition
handleSave is exactly the guest save, so the mutation is never invoked. -/
theorem mutation_error_branch_unreachable (isAuth : Bool)
    (uid : Option String) (s : ComponentState) (store : LocalStore)
    (quotaOk : Bool) :
    (isGuestMode isAuth uid = false →
      ∃ u, uid = some u ∧
        mutationFn uid s.fields = Except.ok (Effect.networkPut u s.fields)) ∧
    (isGuestMode isAuth uid = true →
      handleSave isAuth uid s store quotaOk =
        handleGuestSave s store quotaOk) := by
  constructor
  · intro h
    have hauth : isAuth = true ∧ jsTruthy uid = true := by
      simpa [isGuestMode] using h
    obtain ⟨u, hu⟩ : ∃ u, uid = some u := by
      cases uid with
      | none => simp [jsTruthy] at hauth
      | some u => exact ⟨u, rfl⟩
    have hne : u.isEmpty = false := by
      have := hauth.2
      simpa [hu, jsTruthy] using this
    subst hu
    exact ⟨u, rfl, by simp [mutationFn, hne]⟩
  · intro h
    simp [handleSave, h]

/-- C10 witness: with a guest session the save is the guest save, and with
userId "42" the mutation succeeds with the PUT. -/
theorem mutation_error_branch_unreachable_witness :
    (∃ u, (some "42" : Option String) = some u ∧
      mutationFn (some "42") initialState.fields =
        Except.ok (Effect.networkPut u initialState.fields)) ∧
    handleSave false none initialState none true =
      handleGuestSave initialState none true :=
  ⟨(mutation_error_branch_unreachable true (some "42") initialState none
      true).1 (by decide),
   (mutation_error_branch_unreachable false none initialState none
      true).2 rfl⟩
